import Mathlib

/-!
# Verification of the load-shape state machine and stochastic user engine

Shallow embedding of `src/load-testing/src/load_shapes.py` (the four
`LoadTestShape` variants: Constant, Step, Spike, Ramp) and of the
stochastic `SockShopUser` task engine from
`src/load-testing/src/locustfile.py` / `locustfile_ramp.py`.

Elapsed time (`run_time`, a Python float measured in seconds) is embedded
as `ℚ`; user counts and spawn rates (Python ints) as `ℤ`.  Python's
`int(x)` conversion truncates toward zero, embedded as `pyInt`.
A shape's `tick` returns `Option (ℤ × ℤ)`: `some (user_count, spawn_rate)`
is a directive, `none` is the Terminal signal (Python `None`).
-/

/-- Python `int(x)` applied to a float/rational: truncation toward zero
(floor for nonnegative arguments, ceiling for negative ones). -/
def pyInt (q : ℚ) : ℤ := if 0 ≤ q then ⌊q⌋ else ⌈q⌉

/-! ## ConstantLoad (load_shapes.py lines 16–34) -/

/-- State of `ConstantLoad`: fields set in `ConstantLoad.__init__`. -/
structure ConstantLoad where
  user_count : ℤ
  spawn_rate : ℤ
  test_duration : ℚ

/-- `ConstantLoad.__init__`: user_count 50, spawn_rate 5, test_duration 600. -/
def ConstantLoad.init : ConstantLoad := ⟨50, 5, 600⟩

/-- `ConstantLoad.tick` (lines 28–34): the fixed directive while
`run_time < test_duration`, else `None`. -/
def ConstantLoad.tick (s : ConstantLoad) (run_time : ℚ) : Option (ℤ × ℤ) :=
  if run_time < s.test_duration then some (s.user_count, s.spawn_rate)
  else none

/-! ## StepLoad (load_shapes.py lines 36–67) -/

/-- State of `StepLoad`: `steps` is the list of
`(start_time, user_count, spawn_rate)` tuples, plus `test_duration`. -/
structure StepLoad where
  steps : List (ℚ × ℤ × ℤ)
  test_duration : ℚ

/-- `StepLoad.__init__`: the hardcoded five-step schedule and duration 600. -/
def StepLoad.init : StepLoad :=
  ⟨[(0, 100, 10), (120, 200, 20), (240, 100, 10), (360, 300, 30), (480, 50, 5)], 600⟩

/-- The body of `StepLoad.__init__` with the hardcoded schedule literal
abstracted as a parameter; the source performs no validation of any kind on
the list (lines 42–51 are plain assignments), so every list is accepted. -/
def StepLoad.withSteps (steps : List (ℚ × ℤ × ℤ)) : StepLoad := ⟨steps, 600⟩

/-- The `for ... in self.steps` loop of `StepLoad.tick` (lines 61–65):
update `current_step` while `run_time >= start_time`, `break` otherwise. -/
def stepScan (run_time : ℚ) : List (ℚ × ℤ × ℤ) → (ℤ × ℤ) → (ℤ × ℤ)
  | [], cur => cur
  | (start_time, user_count, spawn_rate) :: rest, cur =>
      if start_time ≤ run_time then stepScan run_time rest (user_count, spawn_rate)
      else cur

/-- `StepLoad.tick` (lines 53–67): `None` when `run_time >= test_duration`,
else scan the steps starting from the default `(50, 5)`. -/
def StepLoad.tick (s : StepLoad) (run_time : ℚ) : Option (ℤ × ℤ) :=
  if s.test_duration ≤ run_time then none
  else some (stepScan run_time s.steps (50, 5))

/-! ## SpikeLoad (load_shapes.py lines 69–99) -/

/-- State of `SpikeLoad`: `spikes` is the list of
`(spike_time, duration, peak_users)` tuples, plus base directive and duration. -/
structure SpikeLoad where
  spikes : List (ℚ × ℚ × ℤ)
  base_users : ℤ
  base_spawn_rate : ℤ
  test_duration : ℚ

/-- `SpikeLoad.__init__`: the hardcoded four-spike schedule, base (10, 2),
duration 600. -/
def SpikeLoad.init : SpikeLoad :=
  ⟨[(60, 30, 15), (180, 30, 50), (300, 30, 100), (420, 30, 25)], 10, 2, 600⟩

/-- The body of `SpikeLoad.__init__` with the hardcoded spike-list literal
abstracted as a parameter; the source performs no validation of any kind on
the list (lines 75–85 are plain assignments), so every list is accepted. -/
def SpikeLoad.withSpikes (spikes : List (ℚ × ℚ × ℤ)) : SpikeLoad := ⟨spikes, 10, 2, 600⟩

/-- The `for ... in self.spikes` loop of `SpikeLoad.tick` (lines 94–96):
return `(peak_users, 20)` for the first window with
`spike_time <= run_time < spike_time + duration`. -/
def spikeScan (run_time : ℚ) : List (ℚ × ℚ × ℤ) → Option (ℤ × ℤ)
  | [] => none
  | (spike_time, duration, peak_users) :: rest =>
      if spike_time ≤ run_time ∧ run_time < spike_time + duration then some (peak_users, 20)
      else spikeScan run_time rest

/-- `SpikeLoad.tick` (lines 87–99): `None` when `run_time >= test_duration`;
the first matching spike window's `(peak_users, 20)`; else the base directive. -/
def SpikeLoad.tick (s : SpikeLoad) (run_time : ℚ) : Option (ℤ × ℤ) :=
  if s.test_duration ≤ run_time then none
  else
    match spikeScan run_time s.spikes with
    | some d => some d
    | none => some (s.base_users, s.base_spawn_rate)

/-! ## RampLoad (load_shapes.py lines 101–140; identical in
locustfile_ramp.py lines 89–128) -/

/-- State of `RampLoad`: fields set in `RampLoad.__init__`. -/
structure RampLoad where
  ramp_up_duration : ℚ
  peak_duration : ℚ
  ramp_down_duration : ℚ
  min_users : ℤ
  max_users : ℤ
  test_duration : ℚ

/-- `RampLoad.__init__`: ramp up 300, peak 120, ramp down 180,
users between 10 and 150, duration 600. -/
def RampLoad.init : RampLoad := ⟨300, 120, 180, 10, 150, 600⟩

/-- `RampLoad.tick` (lines 116–140): `None` at `run_time >= test_duration`;
ramp-up branch while `run_time <= ramp_up_duration` (`int(min + (max-min)*progress)`,
spawn rate 10); peak branch while `run_time <= ramp_up + peak` (max users,
spawn rate 5); ramp-down branch while `run_time <= ramp_up + peak + ramp_down`
(`int(max - (max-min)*progress)`, spawn rate 8); trailing `else: return None`. -/
def RampLoad.tick (s : RampLoad) (run_time : ℚ) : Option (ℤ × ℤ) :=
  if s.test_duration ≤ run_time then none
  else if run_time ≤ s.ramp_up_duration then
    let progress := run_time / s.ramp_up_duration
    some (pyInt ((s.min_users : ℚ) + ((s.max_users : ℚ) - (s.min_users : ℚ)) * progress), 10)
  else if run_time ≤ s.ramp_up_duration + s.peak_duration then
    some (s.max_users, 5)
  else if run_time ≤ s.ramp_up_duration + s.peak_duration + s.ramp_down_duration then
    let ramp_down_start := s.ramp_up_duration + s.peak_duration
    let progress := (run_time - ramp_down_start) / s.ramp_down_duration
    some (pyInt ((s.max_users : ℚ) - ((s.max_users : ℚ) - (s.min_users : ℚ)) * progress), 8)
  else none

/-- Spec-side rendering of the Step policy, written from the spec's words:
"returns the last phase whose `start_offset ≤ elapsed` (most-recently-reached
phase wins; default phase applies before the first `start_offset`)". -/
def lastReachedPhase (run_time : ℚ) (steps : List (ℚ × ℤ × ℤ)) (dflt : ℤ × ℤ) : ℤ × ℤ :=
  steps.foldl (fun cur p => if p.1 ≤ run_time then (p.2.1, p.2.2) else cur) dflt

/-- Membership of an elapsed time in a spike window `(spike_time, duration,
peak_users)`: the half-open interval test of load_shapes.py line 95. -/
def inSpikeWindow (t : ℚ) (w : ℚ × ℚ × ℤ) : Prop := w.1 ≤ t ∧ t < w.1 + w.2.1

instance (t : ℚ) (w : ℚ × ℚ × ℤ) : Decidable (inSpikeWindow t w) := by
  unfold inSpikeWindow; infer_instance

/-! ## Method-call embedding of `tick` for the purity claim

A Python method call is embedded as `state → argument → result × state`.
Every `tick` body reads `self` fields and local variables only and assigns
no attribute, so the post-state is the receiver unchanged. -/

/-- Call embedding of `ConstantLoad.tick`: result together with post-state. -/
def ConstantLoad.tickRun (s : ConstantLoad) (run_time : ℚ) :
    Option (ℤ × ℤ) × ConstantLoad := (s.tick run_time, s)

/-- Call embedding of `StepLoad.tick`: result together with post-state. -/
def StepLoad.tickRun (s : StepLoad) (run_time : ℚ) :
    Option (ℤ × ℤ) × StepLoad := (s.tick run_time, s)

/-- Call embedding of `SpikeLoad.tick`: result together with post-state. -/
def SpikeLoad.tickRun (s : SpikeLoad) (run_time : ℚ) :
    Option (ℤ × ℤ) × SpikeLoad := (s.tick run_time, s)

/-- Call embedding of `RampLoad.tick`: result together with post-state. -/
def RampLoad.tickRun (s : RampLoad) (run_time : ℚ) :
    Option (ℤ × ℤ) × RampLoad := (s.tick run_time, s)

/-! ## The stochastic user engine (locustfile.py / locustfile_ramp.py)

Every locustfile opens with `import random` and each task calls
`random.choice(...)` / `random.randint(...)` on that module object: Python's
`random` module is a single process-wide generator instance, so all
VirtualUsers spawned by one worker draw from the same stream.  The generator
is embedded as the stream of values it will emit plus a cursor counting
draws consumed so far — by all callers together, since the module object is
shared.  No file in the repository ever seeds it. -/

/-- Module-level list `tags` (locustfile.py line 40). -/
def tags : List String :=
  ["red", "blue", "black", "white", "brown", "green", "gray", "purple"]

/-- Module-level list `item_ids` (locustfile.py lines 28–37). -/
def item_ids : List String :=
  ["a0eebc99-9c0b-4ef8-bb6d-6bb9bd380a11",
   "3395a43e-5d8d-4d79-ac8c-0d58e637d5e8",
   "03fef6c8-7c4f-4f69-8a7d-6e48d4c1db8e",
   "d3588630-ad8e-49df-b6f8-5e4f3c0e5e2e",
   "510a0d7e-8e83-4193-b483-e27e9ddc34d8",
   "808a2de1-1aaa-4c25-a9b9-79a93b77c087",
   "819e1fbf-a459-4c89-9e03-9b5d1a5fc1b0",
   "zzz4f044-ec42-4f2b-a2d8-7e4b3f4a5c6d"]

/-- The process-wide `random` module: its pseudo-random output abstracted as
the stream of values it will emit, plus the number of draws consumed so far
by all callers together. -/
structure PyRandomModule where
  stream : ℕ → ℕ
  pos : ℕ

/-- One draw from the shared module generator, advancing the shared cursor. -/
def PyRandomModule.next (g : PyRandomModule) : ℕ × PyRandomModule :=
  (g.stream g.pos, ⟨g.stream, g.pos + 1⟩)

/-- Embedding of `random.choice(xs)`: one draw selects an index into `xs`. -/
def randomChoice (g : PyRandomModule) (xs : List String) : String × PyRandomModule :=
  let (k, g2) := g.next
  (xs.getD (k % xs.length) "", g2)

/-- Tag selections (`random.choice(tags)` in `browse_category`) of one user
performing `n` consecutive cycles while no other user runs. -/
def soloTagDraws (g : PyRandomModule) : ℕ → List String
  | 0 => []
  | n + 1 =>
      let (x, g2) := randomChoice g tags
      x :: soloTagDraws g2 n

/-- Tag selections of the same user over `n` cycles when a second user's
`random.choice(tags)` call on the same shared module generator interleaves
after each of the first user's draws (the second user's selections are
discarded; only the shared cursor advance matters). -/
def interleavedTagDraws (g : PyRandomModule) : ℕ → List String
  | 0 => []
  | n + 1 =>
      let (x, g2) := randomChoice g tags
      let (_, g3) := randomChoice g2 tags
      x :: interleavedTagDraws g3 n

/-- Task names of `SockShopUser` (locustfile_ramp.py lines 44–87). -/
inductive TaskName
  | browse_home | browse_catalogue | browse_category | view_item
  | add_to_cart | view_cart | checkout
deriving DecidableEq

/-- An issued HTTP request: method, path (with query), and the `name=` label
the task attaches. -/
structure Request where
  method : String
  path : String
  label : String
deriving DecidableEq

/-- Per-user session state set up by `SockShopUser.on_start`
(locustfile_ramp.py lines 34–39): tracked cart items and the cart flag. -/
structure Session where
  cart_items : List String
  has_items_in_cart : Bool
deriving DecidableEq

/-- Session state after `on_start`: empty cart, flag false. -/
def Session.onStart : Session := ⟨[], false⟩

/-- One task body of `SockShopUser` (locustfile_ramp.py lines 44–87): given
the shared generator, the session state, and the HTTP status the environment
answers for the issued request, produce the request issued, the next session
state, and the next generator state.  `add_to_cart` (lines 62–74) is the
only task that writes session state: on status 200 it appends the item and
sets the flag; no task reads the session state, and no task branches on any
status except `add_to_cart`'s post-hoc bookkeeping of its own response. -/
def runTask (g : PyRandomModule) (s : Session) (t : TaskName) (status : ℕ) :
    Request × Session × PyRandomModule :=
  match t with
  | .browse_home => (⟨"GET", "/", "browse_home"⟩, s, g)
  | .browse_catalogue => (⟨"GET", "/catalogue", "browse_catalogue"⟩, s, g)
  | .browse_category =>
      let (tag, g2) := randomChoice g tags
      (⟨"GET", "/category.html?tags=" ++ tag, "browse_category"⟩, s, g2)
  | .view_item =>
      let (item, g2) := randomChoice g item_ids
      (⟨"GET", "/detail.html?id=" ++ item, "view_item"⟩, s, g2)
  | .add_to_cart =>
      let (item, g2) := randomChoice g item_ids
      (⟨"POST", "/cart", "add_to_cart"⟩,
        if status = 200 then ⟨s.cart_items ++ [item], true⟩ else s, g2)
  | .view_cart => (⟨"GET", "/basket.html", "view_cart"⟩, s, g)
  | .checkout => (⟨"GET", "/customer-orders.html", "checkout"⟩, s, g)

/-- The VirtualUser loop: each cycle executes exactly the one task the
weighted draw selected (`acts` is the selection sequence), issuing one
request; `statuses` are the environment's responses, one per cycle. -/
def runLoop (g : PyRandomModule) (s : Session) :
    List TaskName → List ℕ → List Request
  | [], _ => []
  | t :: ts, statuses =>
      let (req, s2, g2) := runTask g s t (statuses.headD 0)
      req :: runLoop g2 s2 ts statuses.tail

/-! ## Helper lemmas -/

/-- For a nonnegative argument, Python truncation toward zero is the floor. -/
theorem pyInt_eq_floor (q : ℚ) (h : 0 ≤ q) : pyInt q = ⌊q⌋ := if_pos h

/-- Bounds on `pyInt` of a value squeezed between two integer casts. -/
theorem pyInt_bounds (q : ℚ) (lo hi : ℤ) (h0 : 0 ≤ q) (hlo : (lo : ℚ) ≤ q)
    (hhi : q ≤ (hi : ℚ)) : lo ≤ pyInt q ∧ pyInt q ≤ hi := by
  rw [pyInt_eq_floor q h0]
  exact ⟨Int.le_floor.mpr hlo, le_trans (Int.floor_le_floor hhi) (le_of_eq (Int.floor_intCast hi))⟩

/-! ## C1: behaviour of `tick` at exact phase boundaries -/

/-- C1 (counterexample): the claim states that `RampLoad.tick` at the
boundaries resolves to the phase that is starting, i.e. that `tick 300`
is the peak directive `(150, 5)` and `tick 420` the ramp-down directive
`(150, 8)`.  Both equalities are false: the ramp conditions use `<=`
(load_shapes.py lines 122, 127), so at a boundary the ending phase wins. -/
theorem c1_counterexample :
    ¬ (RampLoad.init.tick 300 = some (150, 5) ∧ RampLoad.init.tick 420 = some (150, 8)) := by
  norm_num [RampLoad.tick, RampLoad.init, pyInt]

/-- C1 (amended): Step and Spike resolve an elapsed time exactly at a phase
boundary to the phase that is starting (inclusive lower bound), but Ramp
resolves it to the phase that is ending (inclusive upper bound `<=`):
`tick 300` returns the ramp-up directive `(150, 10)` and `tick 420` the
peak directive `(150, 5)`; the boundary rule is not consistent across the
variants. -/
theorem c1_phase_boundaries :
    RampLoad.init.tick 300 = some (150, 10) ∧
    RampLoad.init.tick 420 = some (150, 5) ∧
    RampLoad.init.tick 600 = none ∧
    StepLoad.init.tick 120 = some (200, 20) ∧
    StepLoad.init.tick 240 = some (100, 10) ∧
    SpikeLoad.init.tick 60 = some (15, 20) ∧
    SpikeLoad.init.tick 90 = some (10, 2) := by
  refine ⟨?_, ?_, by decide, by decide, by decide, ?_, ?_⟩ <;>
    norm_num [RampLoad.tick, RampLoad.init, SpikeLoad.tick, SpikeLoad.init, spikeScan, pyInt]

/-! ## C2: Step returns the last reached phase -/

/-- C2: for every elapsed time below the duration, `StepLoad.tick` returns
the last phase of the ordered step list whose start offset is at most the
elapsed time (default `(50, 5)` before the first offset), and `None` from
the duration on; the spec's five sample points evaluate as stated. -/
theorem c2_step_last_phase :
    (∀ t : ℚ, 600 ≤ t → StepLoad.init.tick t = none) ∧
    (∀ t : ℚ, t < 600 →
      StepLoad.init.tick t = some (lastReachedPhase t StepLoad.init.steps (50, 5))) ∧
    StepLoad.init.tick 0 = some (100, 10) ∧
    StepLoad.init.tick 119 = some (100, 10) ∧
    StepLoad.init.tick 120 = some (200, 20) ∧
    StepLoad.init.tick 239 = some (200, 20) ∧
    StepLoad.init.tick 240 = some (100, 10) := by
  refine ⟨fun t ht => ?_, fun t ht => ?_, by decide, by decide, by decide, by decide, by decide⟩
  · simp [StepLoad.tick, StepLoad.init, ht]
  · simp only [StepLoad.tick, StepLoad.init, lastReachedPhase, stepScan,
      List.foldl_cons, List.foldl_nil]
    rw [if_neg (by linarith : ¬ (600:ℚ) ≤ t)]
    split_ifs <;> first | rfl | (exfalso; linarith)

/-- C2 witness: the theorem applied at elapsed times 700 and 130. -/
theorem c2_step_last_phase_witness :
    StepLoad.init.tick 700 = none ∧
    StepLoad.init.tick 130 = some (lastReachedPhase 130 StepLoad.init.steps (50, 5)) :=
  ⟨c2_step_last_phase.1 700 (by norm_num), c2_step_last_phase.2.1 130 (by norm_num)⟩

/-! ## C5: construction-time validation of schedules -/

/-- C5 (counterexample): the claim states that constructing a shape from a
schedule with overlapping spike windows, non-increasing offsets or
non-positive spawn rates fails so that the run never begins.  The
constructor bodies are plain assignments with no check: a spike schedule
whose two windows overlap is stored verbatim and `tick` serves it (first
window wins at 60, inside both), an out-of-order step schedule is stored
verbatim and `tick` serves it, and a negative spawn rate is returned as-is. -/
theorem c5_counterexample :
    (SpikeLoad.withSpikes [(0, 100, 15), (50, 100, 50)]).spikes
        = [(0, 100, 15), (50, 100, 50)] ∧
    (SpikeLoad.withSpikes [(0, 100, 15), (50, 100, 50)]).tick 60 = some (15, 20) ∧
    (StepLoad.withSteps [(120, 200, 20), (0, 100, 10)]).steps
        = [(120, 200, 20), (0, 100, 10)] ∧
    (StepLoad.withSteps [(120, 200, 20), (0, 100, 10)]).tick 130 = some (100, 10) ∧
    (StepLoad.withSteps [(0, 100, -3)]).tick 10 = some (100, -3) := by
  refine ⟨rfl, ?_, rfl, by decide, by decide⟩
  norm_num [SpikeLoad.tick, SpikeLoad.withSpikes, spikeScan]

/-- C5 (amended): the constructors perform no validation — every schedule,
well-formed or not, is accepted verbatim; it is only a fact about the
hardcoded literals that the step offsets are strictly increasing, the step
spawn rates positive, the spike windows non-overlapping and the base spawn
rate positive. -/
theorem c5_no_construction_validation :
    (∀ l, (SpikeLoad.withSpikes l).spikes = l) ∧
    (∀ l, (StepLoad.withSteps l).steps = l) ∧
    List.Chain' (· < ·) (StepLoad.init.steps.map Prod.fst) ∧
    List.Chain' (fun a b => a.1 + a.2.1 ≤ b.1) SpikeLoad.init.spikes ∧
    (∀ p ∈ StepLoad.init.steps, 0 < p.2.2) ∧
    0 < SpikeLoad.init.base_spawn_rate := by
  refine ⟨fun l => rfl, fun l => rfl, ?_, ?_, by decide, by decide⟩ <;>
    norm_num [SpikeLoad.init, StepLoad.init, List.chain'_cons]

/-! ## C6: `tick` is pure -/

/-- C6: for every shape variant, state and elapsed time, a `tick` call
leaves the state unchanged and a second call with the same elapsed time
returns the identical result: `tick` is a pure function of the elapsed
time and the immutable schedule. -/
theorem c6_tick_pure :
    (∀ (s : ConstantLoad) (t : ℚ),
      (s.tickRun t).2 = s ∧ ((s.tickRun t).2.tickRun t).1 = (s.tickRun t).1) ∧
    (∀ (s : StepLoad) (t : ℚ),
      (s.tickRun t).2 = s ∧ ((s.tickRun t).2.tickRun t).1 = (s.tickRun t).1) ∧
    (∀ (s : SpikeLoad) (t : ℚ),
      (s.tickRun t).2 = s ∧ ((s.tickRun t).2.tickRun t).1 = (s.tickRun t).1) ∧
    (∀ (s : RampLoad) (t : ℚ),
      (s.tickRun t).2 = s ∧ ((s.tickRun t).2.tickRun t).1 = (s.tickRun t).1) :=
  ⟨fun _ _ => ⟨rfl, rfl⟩, fun _ _ => ⟨rfl, rfl⟩, fun _ _ => ⟨rfl, rfl⟩, fun _ _ => ⟨rfl, rfl⟩⟩

/-! ## C7: the random stream is shared, not per-user -/

/-- C7 (counterexample): with the shared module generator emitting the
stream 0, 1, 2, …, a user's first two `browse_category` tag selections are
`["red", "blue"]` running alone but `["red", "black"]` when a second user's
draws interleave: the action sequence is not independent of how many other
users run concurrently. -/
theorem c7_counterexample :
    soloTagDraws ⟨fun k => k, 0⟩ 2 ≠ interleavedTagDraws ⟨fun k => k, 0⟩ 2 := by
  decide

/-- C7 (amended): every VirtualUser draws from the single module-level
generator of Python's `random` module, which no file seeds; for every
output stream of that shared generator, a user's selections are taken at
the shared cursor positions, so interleaved draws by a second user shift
which stream values the first user receives (indices 0, 2 instead of 0, 1). -/
theorem c7_shared_generator (σ : ℕ → ℕ) :
    soloTagDraws ⟨σ, 0⟩ 2 = [tags.getD (σ 0 % 8) "", tags.getD (σ 1 % 8) ""] ∧
    interleavedTagDraws ⟨σ, 0⟩ 2 = [tags.getD (σ 0 % 8) "", tags.getD (σ 2 % 8) ""] :=
  ⟨rfl, rfl⟩

/-! ## C10: Ramp is total below the duration -/

/-- C10: `RampLoad.tick` returns Terminal exactly when the elapsed time
reaches `test_duration`; since the three phase durations sum to exactly
`test_duration`, the trailing `else: return None` inside the phase logic is
unreachable and every earlier instant receives a directive. -/
theorem c10_ramp_terminal (t : ℚ) :
    (RampLoad.init.tick t = none ↔ RampLoad.init.test_duration ≤ t) ∧
    RampLoad.init.ramp_up_duration + RampLoad.init.peak_duration +
      RampLoad.init.ramp_down_duration = RampLoad.init.test_duration := by
  constructor
  · simp only [RampLoad.tick, RampLoad.init]
    split_ifs with h1 h2 h3 h4
    · exact iff_of_true rfl h1
    · exact iff_of_false (by simp) h1
    · exact iff_of_false (by simp) h1
    · exact iff_of_false (by simp) h1
    · exact iff_of_true rfl (by linarith)
  · norm_num [RampLoad.init]

/-! ## C3: ramp-up formula, monotonicity and bounds -/

/-- C3: over the ramp-up interval the Ramp directive is spawn rate 10
together with `min + (max - min) * (t / up_duration)` truncated toward zero
(equal to the floor, the argument being nonnegative); the user count is
non-decreasing in the elapsed time and never exceeds 150, and the endpoints
evaluate to 10 and 150. -/
theorem c3_ramp_up_monotone (t t2 : ℚ) (h0 : 0 ≤ t) (h12 : t ≤ t2) (h2 : t2 ≤ 300) :
    RampLoad.init.tick t = some (⌊(10:ℚ) + ((150:ℚ) - 10) * (t / 300)⌋, 10) ∧
    (∀ d d2, RampLoad.init.tick t = some d → RampLoad.init.tick t2 = some d2 →
      d.1 ≤ d2.1 ∧ d2.1 ≤ 150) ∧
    RampLoad.init.tick 0 = some (10, 10) ∧
    RampLoad.init.tick 300 = some (150, 10) := by
  have eval : ∀ u : ℚ, 0 ≤ u → u ≤ 300 →
      RampLoad.init.tick u = some (⌊(10:ℚ) + ((150:ℚ) - 10) * (u / 300)⌋, 10) := by
    intro u hu0 hu3
    have hprog : 0 ≤ u / 300 := div_nonneg hu0 (by norm_num)
    have hmul0 : 0 ≤ ((150:ℚ) - 10) * (u / 300) := mul_nonneg (by norm_num) hprog
    simp only [RampLoad.tick, RampLoad.init]
    rw [if_neg (by linarith : ¬ (600:ℚ) ≤ u), if_pos hu3]
    have hcast : ((10:ℤ):ℚ) + (((150:ℤ):ℚ) - ((10:ℤ):ℚ)) * (u / 300)
        = (10:ℚ) + ((150:ℚ) - 10) * (u / 300) := by push_cast; ring
    rw [hcast, pyInt_eq_floor _ (by linarith)]
  refine ⟨eval t h0 (le_trans h12 h2), fun d d2 hd hd2 => ?_,
    by norm_num [RampLoad.tick, RampLoad.init, pyInt],
    by norm_num [RampLoad.tick, RampLoad.init, pyInt]⟩
  rw [eval t h0 (le_trans h12 h2)] at hd
  rw [eval t2 (le_trans h0 h12) h2] at hd2
  cases hd
  cases hd2
  constructor
  · apply Int.floor_le_floor
    have hdiv : t / 300 ≤ t2 / 300 := by gcongr
    linarith
  · have hx : t2 / 300 ≤ 1 := by
      rw [div_le_one (by norm_num : (0:ℚ) < 300)]; exact h2
    have hmul1 : ((150:ℚ) - 10) * (t2 / 300) ≤ ((150:ℚ) - 10) * 1 :=
      mul_le_mul_of_nonneg_left hx (by norm_num)
    calc (⌊(10:ℚ) + ((150:ℚ) - 10) * (t2 / 300)⌋ : ℤ)
        ≤ ⌊(150:ℚ)⌋ := Int.floor_le_floor (by linarith)
      _ = 150 := by norm_num

/-- C3 witness: the theorem applied at elapsed times 100 and 200. -/
theorem c3_ramp_up_monotone_witness :
    (0:ℚ) ≤ 100 ∧ (100:ℚ) ≤ 200 ∧ (200:ℚ) ≤ 300 ∧
    RampLoad.init.tick 100 = some (⌊(10:ℚ) + ((150:ℚ) - 10) * (100 / 300)⌋, 10) :=
  ⟨by norm_num, by norm_num, by norm_num,
    (c3_ramp_up_monotone 100 200 (by norm_num) (by norm_num) (by norm_num)).1⟩

/-! ## C4: Spike base and peak directives -/

/-- C4: below the duration, `SpikeLoad.tick` returns exactly the base
directive `(10, 2)` whenever the elapsed time lies outside every configured
spike window, and the window's `(peak_users, 20)` whenever it lies inside
one; from the duration on it returns Terminal. -/
theorem c4_spike_isolation :
    (∀ t : ℚ, 600 ≤ t → SpikeLoad.init.tick t = none) ∧
    (∀ t : ℚ, t < 600 → (∀ w ∈ SpikeLoad.init.spikes, ¬ inSpikeWindow t w) →
      SpikeLoad.init.tick t = some (10, 2)) ∧
    (∀ t : ℚ, t < 600 → ∀ w ∈ SpikeLoad.init.spikes, inSpikeWindow t w →
      SpikeLoad.init.tick t = some (w.2.2, 20)) := by
  refine ⟨fun t ht => ?_, fun t ht hout => ?_, fun t ht w hw hin => ?_⟩
  · simp [SpikeLoad.tick, SpikeLoad.init, ht]
  · have h1 : ¬ ((60:ℚ) ≤ t ∧ t < 60 + 30) := hout (60, 30, 15) (by simp [SpikeLoad.init])
    have h2 : ¬ ((180:ℚ) ≤ t ∧ t < 180 + 30) := hout (180, 30, 50) (by simp [SpikeLoad.init])
    have h3 : ¬ ((300:ℚ) ≤ t ∧ t < 300 + 30) := hout (300, 30, 100) (by simp [SpikeLoad.init])
    have h4 : ¬ ((420:ℚ) ≤ t ∧ t < 420 + 30) := hout (420, 30, 25) (by simp [SpikeLoad.init])
    simp only [SpikeLoad.tick, SpikeLoad.init, spikeScan]
    rw [if_neg (by linarith : ¬ (600:ℚ) ≤ t), if_neg h1, if_neg h2, if_neg h3, if_neg h4]
  · simp only [SpikeLoad.init] at hw
    fin_cases hw
    · have hin' : (60:ℚ) ≤ t ∧ t < 60 + 30 := hin
      simp only [SpikeLoad.tick, SpikeLoad.init, spikeScan]
      rw [if_neg (by linarith : ¬ (600:ℚ) ≤ t), if_pos hin']
    · have hin' : (180:ℚ) ≤ t ∧ t < 180 + 30 := hin
      simp only [SpikeLoad.tick, SpikeLoad.init, spikeScan]
      rw [if_neg (by linarith : ¬ (600:ℚ) ≤ t),
        if_neg (show ¬ ((60:ℚ) ≤ t ∧ t < 60 + 30) from
          fun hc => absurd hin'.1 (by linarith [hc.2])),
        if_pos hin']
    · have hin' : (300:ℚ) ≤ t ∧ t < 300 + 30 := hin
      simp only [SpikeLoad.tick, SpikeLoad.init, spikeScan]
      rw [if_neg (by linarith : ¬ (600:ℚ) ≤ t),
        if_neg (show ¬ ((60:ℚ) ≤ t ∧ t < 60 + 30) from
          fun hc => absurd hin'.1 (by linarith [hc.2])),
        if_neg (show ¬ ((180:ℚ) ≤ t ∧ t < 180 + 30) from
          fun hc => absurd hin'.1 (by linarith [hc.2])),
        if_pos hin']
    · have hin' : (420:ℚ) ≤ t ∧ t < 420 + 30 := hin
      simp only [SpikeLoad.tick, SpikeLoad.init, spikeScan]
      rw [if_neg (by linarith : ¬ (600:ℚ) ≤ t),
        if_neg (show ¬ ((60:ℚ) ≤ t ∧ t < 60 + 30) from
          fun hc => absurd hin'.1 (by linarith [hc.2])),
        if_neg (show ¬ ((180:ℚ) ≤ t ∧ t < 180 + 30) from
          fun hc => absurd hin'.1 (by linarith [hc.2])),
        if_neg (show ¬ ((300:ℚ) ≤ t ∧ t < 300 + 30) from
          fun hc => absurd hin'.1 (by linarith [hc.2])),
        if_pos hin']

/-- C4 witness: the theorem applied outside every window (t = 45) and
inside the second window (t = 185). -/
theorem c4_spike_isolation_witness :
    SpikeLoad.init.tick 45 = some (10, 2) ∧ SpikeLoad.init.tick 185 = some (50, 20) := by
  constructor
  · refine c4_spike_isolation.2.1 45 (by norm_num) ?_
    intro w hw
    simp only [SpikeLoad.init] at hw
    fin_cases hw <;> norm_num [inSpikeWindow]
  · exact c4_spike_isolation.2.2 185 (by norm_num) (180, 30, 50)
      (by simp [SpikeLoad.init]) (by norm_num [inSpikeWindow])

/-! ## C8: one action per cycle, independent of prior outcomes -/

/-- C8: each loop cycle issues exactly one request, and the sequence of
requests a user issues is a function of the selected actions and the shared
generator only: it is identical across any two session states and any two
response-status histories, so neither retry nor branching on the success,
failure or status of earlier requests influences which requests are
issued. -/
theorem c8_requests_outcome_independent (acts : List TaskName) :
    (∀ (g : PyRandomModule) (s1 s2 : Session) (st1 st2 : List ℕ),
      runLoop g s1 acts st1 = runLoop g s2 acts st2) ∧
    (∀ (g : PyRandomModule) (s : Session) (st : List ℕ),
      (runLoop g s acts st).length = acts.length) := by
  induction acts with
  | nil => exact ⟨fun _ _ _ _ _ => rfl, fun _ _ _ => rfl⟩
  | cons a ts ih =>
    constructor
    · intro g s1 s2 st1 st2
      cases a <;>
        simp only [runLoop, runTask, randomChoice, PyRandomModule.next] <;>
        exact congrArg _ (ih.1 _ _ _ _ _)
    · intro g s st
      cases a <;>
        simp only [runLoop, runTask, randomChoice, PyRandomModule.next,
          List.length_cons] <;>
        exact congrArg Nat.succ (ih.2 _ _ _)

/-! ## C9: directives satisfy the data-model invariant -/

/-- C9: for every nonnegative elapsed time, any non-Terminal directive of
any variant carries a nonnegative user count and a positive spawn rate; the
Ramp user count moreover stays within `[min_users, max_users] = [10, 150]`
and its spawn rate is one of the positive phase constants 10, 5, 8. -/
theorem c9_directive_invariants (t : ℚ) (h0 : 0 ≤ t) :
    (∀ u r, ConstantLoad.init.tick t = some (u, r) → 0 ≤ u ∧ 0 < r) ∧
    (∀ u r, StepLoad.init.tick t = some (u, r) → 0 ≤ u ∧ 0 < r) ∧
    (∀ u r, SpikeLoad.init.tick t = some (u, r) → 0 ≤ u ∧ 0 < r) ∧
    (∀ u r, RampLoad.init.tick t = some (u, r) →
      10 ≤ u ∧ u ≤ 150 ∧ 0 ≤ u ∧ (r = 10 ∨ r = 5 ∨ r = 8) ∧ 0 < r) := by
  refine ⟨fun u r h => ?_, fun u r h => ?_, fun u r h => ?_, fun u r h => ?_⟩
  · simp only [ConstantLoad.tick, ConstantLoad.init] at h
    split_ifs at h <;>
      first
        | exact Option.noConfusion h
        | (simp only [Option.some.injEq, Prod.mk.injEq] at h; omega)
  · simp only [StepLoad.tick, StepLoad.init, stepScan] at h
    split_ifs at h <;>
      first
        | exact Option.noConfusion h
        | (simp only [Option.some.injEq, Prod.mk.injEq] at h; omega)
  · simp only [SpikeLoad.tick, SpikeLoad.init, spikeScan] at h
    split_ifs at h <;>
      first
        | exact Option.noConfusion h
        | (simp only [Option.some.injEq, Prod.mk.injEq] at h; omega)
  · simp only [RampLoad.tick, RampLoad.init] at h
    split_ifs at h with hdur hup hpeak hdown
    · simp only [Option.some.injEq, Prod.mk.injEq] at h
      obtain ⟨hu, hr⟩ := h
      have hprog : 0 ≤ t / 300 := div_nonneg h0 (by norm_num)
      have hple : t / 300 ≤ 1 := by
        rw [div_le_one (by norm_num : (0:ℚ) < 300)]; linarith
      have hmul0 : 0 ≤ ((150:ℚ) - 10) * (t / 300) := mul_nonneg (by norm_num) hprog
      have hmul1 : ((150:ℚ) - 10) * (t / 300) ≤ ((150:ℚ) - 10) * 1 :=
        mul_le_mul_of_nonneg_left hple (by norm_num)
      have hcast : ((10:ℤ):ℚ) + (((150:ℤ):ℚ) - ((10:ℤ):ℚ)) * (t / 300)
          = (10:ℚ) + ((150:ℚ) - 10) * (t / 300) := by push_cast; ring
      have hb := pyInt_bounds ((10:ℚ) + ((150:ℚ) - 10) * (t / 300)) 10 150
        (by linarith) (by push_cast; linarith) (by push_cast; linarith)
      subst hu; subst hr
      rw [hcast]
      refine ⟨hb.1, hb.2, by linarith [hb.1], Or.inl rfl, by norm_num⟩
    · simp only [Option.some.injEq, Prod.mk.injEq] at h
      omega
    · simp only [Option.some.injEq, Prod.mk.injEq] at h
      obtain ⟨hu, hr⟩ := h
      have hprog : 0 ≤ (t - ((300:ℚ) + 120)) / 180 :=
        div_nonneg (by linarith) (by norm_num)
      have hple : (t - ((300:ℚ) + 120)) / 180 ≤ 1 := by
        rw [div_le_one (by norm_num : (0:ℚ) < 180)]; linarith
      have hmul0 : 0 ≤ ((150:ℚ) - 10) * ((t - ((300:ℚ) + 120)) / 180) :=
        mul_nonneg (by norm_num) hprog
      have hmul1 : ((150:ℚ) - 10) * ((t - ((300:ℚ) + 120)) / 180) ≤ ((150:ℚ) - 10) * 1 :=
        mul_le_mul_of_nonneg_left hple (by norm_num)
      have hcast : ((150:ℤ):ℚ) - (((150:ℤ):ℚ) - ((10:ℤ):ℚ)) * ((t - ((300:ℚ) + 120)) / 180)
          = (150:ℚ) - ((150:ℚ) - 10) * ((t - ((300:ℚ) + 120)) / 180) := by push_cast; ring
      have hb := pyInt_bounds
        ((150:ℚ) - ((150:ℚ) - 10) * ((t - ((300:ℚ) + 120)) / 180)) 10 150
        (by linarith) (by push_cast; linarith) (by push_cast; linarith)
      subst hu; subst hr
      rw [hcast]
      refine ⟨hb.1, hb.2, by linarith [hb.1], Or.inr (Or.inr rfl), by norm_num⟩

/-- C9 witness: the theorem applied at elapsed time 100, where the Ramp
directive is `(56, 10)`. -/
theorem c9_directive_invariants_witness :
    (0:ℚ) ≤ 100 ∧
    (10 ≤ (56:ℤ) ∧ (56:ℤ) ≤ 150 ∧ 0 ≤ (56:ℤ) ∧
      ((10:ℤ) = 10 ∨ (10:ℤ) = 5 ∨ (10:ℤ) = 8) ∧ 0 < (10:ℤ)) :=
  ⟨by norm_num, (c9_directive_invariants 100 (by norm_num)).2.2.2 56 10
    (by norm_num [RampLoad.tick, RampLoad.init, pyInt])⟩
